import Mathlib

/-!
Verification of the SST dashboard's data-processing core
(`src/streamlit_app.py`): the Remote Grid Fetcher (`load_and_slice_data`),
the Climatology Aggregator (`load_climatology_data`), and the Anomaly
Calculator (`anomaly_data = sst_data - climatology_data`), as a shallow
embedding.

Embedding choices:
- A grid value is `Option ℚ`: `none` is the missing-data marker (IEEE NaN
  in the source); `some q` is a finite floating-point value, modelled as an
  exact rational.
- A `Grid m n` is a total function over a fixed latitude/longitude index
  set `Fin m × Fin n`; all grids produced by one run of the pipeline share
  the same subset window (lat 28–42, lon 120–135), hence the same indices.
- The remote OPeNDAP service is a parameter (`RemoteService`): `primary`
  models `xr.open_dataset(url)` and `fallback` models the retry
  `xr.open_dataset(url, engine="pydap")`; each yields either the already
  subset/squeezed/loaded grid for the requested date or an exception
  carried as `Except.error detail`.
- Streamlit side effects (`st.error`, `st.info`, `st.warning`) are
  modelled as `Msg` values returned alongside the data; `@st.cache_data`
  memoizes a pure function and is semantically the identity.
- All embedded functions are total, which models the source's propagation
  policy that caught failures become `None` rather than terminating faults.
- `xarray`'s `DataArray.mean(dim="time")` uses `skipna=True` by default on
  float data: at each cell it averages the non-NaN contributions and
  yields NaN only when every contribution is NaN.  `concat_mean` below
  embeds exactly that reduction.
-/

/-- A grid cell value: `none` is the missing-data marker (NaN). -/
abbrev Val := Option ℚ

/-- A 2-D grid over the fixed lat/lon window, indexed by `Fin m × Fin n`. -/
abbrev Grid (m n : Nat) := Fin m → Fin n → Val

/-- A calendar date, as the (year, month, day) triple the source manipulates. -/
structure Date where
  year : Nat
  month : Nat
  day : Nat
deriving DecidableEq, Repr

/-- User-visible Streamlit messages emitted by the pipeline. -/
inductive Msg where
  /-- `st.error(f"데이터를 불러오는 중 오류가 발생했습니다: {e}")` with the caught detail. -/
  | errorMsg (detail : String)
  /-- `st.info(...)` hinting at firewall/SSL or engine installation. -/
  | engineHint
  /-- `st.warning("2월 29일의 평년값은 제공되지 않습니다. ...")`. -/
  | leapDayNotice
deriving DecidableEq, Repr

/-- NaN-propagating subtraction on cell values (`a - b` in numpy/xarray:
NaN on either side poisons the result). -/
def subVal : Val → Val → Val
  | some a, some b => some (a - b)
  | _, _ => none

/-- NaN-propagating addition on cell values. -/
def addVal : Val → Val → Val
  | some a, some b => some (a + b)
  | _, _ => none

/-- Elementwise grid subtraction: the source's `sst_data - climatology_data`. -/
def anomaly_data {m n : Nat} (o c : Grid m n) : Grid m n :=
  fun i j => subVal (o i j) (c i j)

/-- Elementwise grid addition (used to state the round-trip law). -/
def gridAdd {m n : Nat} (a b : Grid m n) : Grid m n :=
  fun i j => addVal (a i j) (b i j)

/-- The remote yearly dataset service: `primary` is `xr.open_dataset(url)`,
`fallback` is `xr.open_dataset(url, engine="pydap")`.  Each returns the
subset grid for the requested date, or the exception text. -/
structure RemoteService (m n : Nat) where
  primary : Date → Except String (Grid m n)
  fallback : Date → Except String (Grid m n)

/-- The inner `try: open_dataset except: open_dataset(engine="pydap")`:
the fallback is attempted only when the primary raises. -/
def open_dataset {m n : Nat} (svc : RemoteService m n) (d : Date) :
    Except String (Grid m n) :=
  match svc.primary d with
  | .ok ds => .ok ds
  | .error _ => svc.fallback d

/-- `load_and_slice_data`: open (with fallback), subset, load; return `None`
if every value is NaN (`np.all(np.isnan(da.values))`), and on any caught
exception report `st.error`/`st.info` and return `None`. -/
def load_and_slice_data {m n : Nat} (svc : RemoteService m n) (d : Date) :
    Option (Grid m n) × List Msg :=
  match open_dataset svc d with
  | .ok da =>
      if ∀ i j, da i j = none then (none, []) else (some da, [])
  | .error e => (none, [Msg.errorMsg e, Msg.engineHint])

/-- Gregorian leap-year test, matching
`pd.to_datetime(f"{year}-01-01").is_leap_year`. -/
def isLeapYear (y : Nat) : Bool :=
  (y % 4 == 0 && y % 100 != 0) || (y % 400 == 0)

/-- The fixed climatology window `range(1991, 2021)`: 1991..2020 inclusive. -/
def climatology_period : List Nat := List.range' 1991 30

/-- The normalized target day: February 29 is replaced by February 28
(`selected_date.replace(day=28)`); any other date passes through. -/
def target_day (selected : Date) : Date :=
  if selected.month = 2 ∧ selected.day = 29 then
    { selected with day := 28 }
  else selected

/-- The leap-day policy notice emitted by the aggregator when the selected
date is February 29. -/
def leap_msgs (selected : Date) : List Msg :=
  if selected.month = 2 ∧ selected.day = 29 then [Msg.leapDayNotice] else []

/-- One iteration of the aggregator's year loop: skip the year when it is
not a leap year while the target day is February 29 (the source's
`continue`), otherwise fetch `target_day.replace(year=year)` and append
the grid when one is returned (`daily_data_list.append`). -/
def year_step {m n : Nat} (fetch : Date → Option (Grid m n)) (t : Date)
    (acc : List (Grid m n)) (year : Nat) : List (Grid m n) :=
  if ¬ isLeapYear year ∧ t.month = 2 ∧ t.day = 29 then acc
  else
    match fetch { t with year := year } with
    | some g => acc ++ [g]
    | none => acc

/-- The aggregator's year loop over the whole window. -/
def collect_daily {m n : Nat} (fetch : Date → Option (Grid m n)) (t : Date) :
    List (Grid m n) :=
  climatology_period.foldl (year_step fetch t) []

/-- Mean of a list of cell values with xarray's default `skipna=True`
semantics: average the non-NaN entries; NaN only when all entries are NaN. -/
def meanVals (vs : List Val) : Val :=
  match vs.filterMap id with
  | [] => none
  | ps => some (ps.sum / ps.length)

/-- `xr.concat(daily_data_list, dim="time").mean(dim="time")`: the
elementwise reduction of the collected grids. -/
def concat_mean {m n : Nat} (l : List (Grid m n)) : Grid m n :=
  fun i j => meanVals (l.map (fun g => g i j))

/-- `load_climatology_data`: normalize the target day, loop over the
window collecting per-year grids, return `None` when no year contributed,
else the time-mean grid; alongside the leap-day notice when emitted. -/
def load_climatology_data {m n : Nat} (fetch : Date → Option (Grid m n))
    (selected : Date) : Option (Grid m n) × List Msg :=
  let t := target_day selected
  let daily_data_list := collect_daily fetch t
  (if daily_data_list.isEmpty then none else some (concat_mean daily_data_list),
   leap_msgs selected)

/-- What one rendering pass of the main script displays. -/
structure RenderState (m n : Nat) where
  /-- The grid shown in the observed-day tab (tab1), when it renders. -/
  observedGrid : Option (Grid m n)
  /-- The grid shown in the anomaly tab (tab2), when available. -/
  anomalyGrid : Option (Grid m n)
  /-- `st.warning("평년 편차 데이터를 계산할 수 없습니다.")` shown in tab2. -/
  anomalyWarning : Bool
  /-- `st.warning("선택하신 날짜에 해당하는 데이터가 없습니다. ...")`. -/
  noDataWarning : Bool
  /-- `st.stop()` was reached. -/
  stopped : Bool
  /-- All user-visible messages emitted during the pass. -/
  messages : List Msg
deriving DecidableEq, Repr

/-- The main logic (lines 206-243): fetch the observed day; when present
and non-empty, compute climatology and `anomaly_data`, render tab1 with
the observed grid and tab2 with the anomaly or a warning; when the fetch
returned an empty grid, warn; when it returned `None`, stop. -/
def main_logic {m n : Nat} (svc : RemoteService m n) (selected : Date) :
    RenderState m n :=
  let fetched := load_and_slice_data svc selected
  match fetched.1 with
  | some g =>
      if 0 < m * n then
        let clim := load_climatology_data
          (fun d => (load_and_slice_data svc d).1) selected
        let anomaly := clim.1.map (fun c => anomaly_data g c)
        { observedGrid := some g
          anomalyGrid := anomaly
          anomalyWarning := anomaly.isNone
          noDataWarning := false
          stopped := false
          messages := fetched.2 ++ clim.2 }
      else
        { observedGrid := none, anomalyGrid := none, anomalyWarning := false
          noDataWarning := true, stopped := false, messages := fetched.2 }
  | none =>
      { observedGrid := none, anomalyGrid := none, anomalyWarning := false
        noDataWarning := false, stopped := true, messages := fetched.2 }

/-- The normalized target day is never February 29: the only input with
month 2 and day 29 is replaced by day 28. -/
lemma target_day_not_feb29 (s : Date) :
    ¬ ((target_day s).month = 2 ∧ (target_day s).day = 29) := by
  unfold target_day
  by_cases h : s.month = 2 ∧ s.day = 29
  · simp [h]
  · rw [if_neg h]
    exact h

/-- Generalized accumulator form of the aggregator loop: since the target
day is never February 29 the skip branch is dead, and the loop appends
exactly the grids of the years whose fetch returned one. -/
lemma foldl_collect {m n : Nat} (fetch : Date → Option (Grid m n)) (t : Date)
    (ht : ¬ (t.month = 2 ∧ t.day = 29)) (l : List Nat) (acc : List (Grid m n)) :
    l.foldl (year_step fetch t) acc
      = acc ++ l.filterMap (fun y => fetch { t with year := y }) := by
  induction l generalizing acc with
  | nil => simp
  | cons x xs ih =>
      have hcond : ¬ (¬ isLeapYear x ∧ t.month = 2 ∧ t.day = 29) := by
        intro hc
        exact ht ⟨hc.2.1, hc.2.2⟩
      rw [List.foldl_cons, List.filterMap_cons]
      cases hfx : fetch { t with year := x } with
      | none =>
          rw [show year_step fetch t acc x = acc by
            unfold year_step; rw [if_neg hcond, hfx]]
          exact ih acc
      | some g =>
          rw [show year_step fetch t acc x = acc ++ [g] by
            unfold year_step; rw [if_neg hcond, hfx]]
          rw [ih (acc ++ [g])]
          simp

/-- The collected list is the `filterMap` of the fetcher over the window,
with the year substituted into the (normalized) target day. -/
lemma collect_daily_eq_filterMap {m n : Nat} (fetch : Date → Option (Grid m n))
    (s : Date) :
    collect_daily fetch (target_day s)
      = climatology_period.filterMap
          (fun y => fetch { target_day s with year := y }) := by
  unfold collect_daily
  simpa using foldl_collect fetch (target_day s) (target_day_not_feb29 s)
    climatology_period []

/-- A `filterMap` whose function is everywhere `some` is a `map`. -/
lemma filterMap_eq_map_of_all_some {α β : Type} (l : List α) (f : α → Option β)
    (g : α → β) (h : ∀ a ∈ l, f a = some (g a)) : l.filterMap f = l.map g := by
  induction l with
  | nil => rfl
  | cons x xs ih =>
      have hx := h x (List.mem_cons_self x xs)
      have hxs := ih (fun a ha => h a (List.mem_cons_of_mem x ha))
      simp [List.filterMap_cons, hx, hxs]

/-- A `filterMap` over a duplicate-free list where exactly one element maps
to `some` is that singleton. -/
lemma filterMap_eq_singleton_of_unique {α β : Type} (l : List α)
    (f : α → Option β) (a : α) (b : β) (hnd : l.Nodup) (ha : a ∈ l)
    (hfa : f a = some b) (hother : ∀ x ∈ l, x ≠ a → f x = none) :
    l.filterMap f = [b] := by
  induction l with
  | nil => cases ha
  | cons x xs ih =>
      have hx_nin : x ∉ xs := (List.nodup_cons.mp hnd).1
      rcases List.mem_cons.mp ha with hax | haxs
      · subst hax
        have hnil : xs.filterMap f = [] := by
          rw [List.filterMap_eq_nil_iff]
          intro z hz
          exact hother z (List.mem_cons_of_mem a hz)
            (fun hza => hx_nin (hza ▸ hz))
        simp [List.filterMap_cons, hfa, hnil]
      · have hxa : x ≠ a := fun hx => hx_nin (hx ▸ haxs)
        rw [List.filterMap_cons, hother x (List.mem_cons_self x xs) hxa]
        exact ih (List.nodup_cons.mp hnd).2 haxs
          (fun z hz hza => hother z (List.mem_cons_of_mem x hz) hza)

/-- The time-mean of a single grid is that grid: at a valued cell the mean
of one value is itself, and a NaN cell stays NaN. -/
lemma concat_mean_single {m n : Nat} (G : Grid m n) : concat_mean [G] = G := by
  funext i j
  cases hG : G i j with
  | none => simp [concat_mean, meanVals, hG]
  | some q => simp [concat_mean, meanVals, hG]

/-- Claim C3: for every remote service and date, the Fetcher
(`load_and_slice_data`) returns either absence (`None`) or a grid with at
least one non-missing value; it never returns an all-NaN grid, because
`np.all(np.isnan(da.values))` triggers the `return None` path. -/
theorem fetcher_never_all_missing {m n : Nat} (svc : RemoteService m n)
    (d : Date) :
    (load_and_slice_data svc d).1 = none ∨
    ∃ g, (load_and_slice_data svc d).1 = some g ∧ ∃ i j, g i j ≠ none := by
  unfold load_and_slice_data
  cases hod : open_dataset svc d with
  | error e => exact Or.inl rfl
  | ok da =>
      by_cases h : ∀ i j, da i j = none
      · exact Or.inl (by simp [h])
      · refine Or.inr ⟨da, by simp [h], ?_⟩
        push_neg at h
        exact h

/-- Claim C6: any error raised while opening or subsetting the remote
dataset is caught and surfaced as absence (`None`) with the error detail
reported via `st.error` plus the firewall/SSL/engine hint via `st.info`;
the embedded function is total, so nothing propagates as a terminating
fault. -/
theorem fetch_error_reported_as_absence {m n : Nat} (svc : RemoteService m n)
    (d : Date) (e : String) (h : open_dataset svc d = .error e) :
    load_and_slice_data svc d = (none, [Msg.errorMsg e, Msg.engineHint]) := by
  unfold load_and_slice_data
  rw [h]

/-- A service whose primary and fallback access methods both raise. -/
def svc_down : RemoteService 1 1 :=
  { primary := fun _ => .error "timeout"
    fallback := fun _ => .error "timeout" }

/-- Witness for C6 at a concrete failing service and date. -/
theorem fetch_error_reported_as_absence_witness :
    open_dataset svc_down ⟨2023, 7, 15⟩ = .error "timeout" ∧
    load_and_slice_data svc_down ⟨2023, 7, 15⟩
      = (none, [Msg.errorMsg "timeout", Msg.engineHint]) :=
  ⟨rfl, fetch_error_reported_as_absence svc_down ⟨2023, 7, 15⟩ "timeout" rfl⟩

/-- An observed grid with a value at its only cell. -/
def obs_cex : Grid 1 1 := fun _ _ => some 5

/-- A climatology grid whose only cell is the missing-data marker. -/
def clim_cex : Grid 1 1 := fun _ _ => none

/-- Counterexample to claim C2 as stated: when the climatology grid has a
NaN cell where the observed grid has a value, the anomaly is NaN there and
adding the climatology back yields NaN, not the observed value 5 — no
floating-point tolerance makes NaN reproduce 5. -/
theorem anomaly_roundtrip_counterexample :
    gridAdd (anomaly_data obs_cex clim_cex) clim_cex 0 0 = none ∧
    obs_cex 0 0 = some 5 := ⟨rfl, rfl⟩

/-- Claim C2 (amended): for grids on identical coordinate axes where the
climatology has no missing cell, the anomaly `O - C` added back to `C`
reproduces `O` exactly (NaN cells of `O` reproduce as NaN). -/
theorem anomaly_roundtrip {m n : Nat} (o c : Grid m n)
    (hc : ∀ i j, c i j ≠ none) :
    gridAdd (anomaly_data o c) c = o := by
  funext i j
  cases hcij : c i j with
  | none => exact absurd hcij (hc i j)
  | some q =>
      cases hoij : o i j with
      | none => simp [gridAdd, anomaly_data, subVal, addVal, hcij, hoij]
      | some a => simp [gridAdd, anomaly_data, subVal, addVal, hcij, hoij]

/-- An observed grid used in the C2 witness. -/
def obs_w : Grid 1 1 := fun _ _ => some 5

/-- A fully valued climatology grid used in the C2 witness. -/
def clim_w : Grid 1 1 := fun _ _ => some 2

/-- Witness for the amended C2 at concrete 1×1 grids. -/
theorem anomaly_roundtrip_witness :
    (∀ i j, clim_w i j ≠ none) ∧
    gridAdd (anomaly_data obs_w clim_w) clim_w = obs_w :=
  ⟨by decide, anomaly_roundtrip obs_w clim_w (by decide)⟩

/-- A fetcher with data only for February 28, 1991 (a non-leap year). -/
def fetch_feb28_1991 : Date → Option (Grid 1 1) := fun d =>
  if d.year = 1991 ∧ d.month = 2 ∧ d.day = 28 then some (fun _ _ => some 3)
  else none

/-- Counterexample to claim C8 as stated: requesting February 29, 2024
against a fetcher that only has data for February 28 of the non-leap year
1991 still yields a climatology grid (value 3), so the non-leap year 1991
was not skipped — it contributed its February 28 grid.  Under the claim
the result would be absence. -/
theorem leap_day_nonleap_year_contributes :
    (load_climatology_data fetch_feb28_1991 ⟨2024, 2, 29⟩).1.map
        (fun g => g 0 0) = some (some 3) := by
  have hcol : collect_daily fetch_feb28_1991 (target_day ⟨2024, 2, 29⟩)
      = [fun _ _ => some 3] := by
    rw [collect_daily_eq_filterMap]
    exact filterMap_eq_singleton_of_unique climatology_period _ 1991
      (fun _ _ => some 3) (List.nodup_range' 1991 30) (by decide) rfl
      (by decide)
  simp [load_climatology_data, hcol, concat_mean_single]

/-- Claim C8 (amended): when the requested date is February 29 the
aggregator substitutes February 28 before the loop, so it queries February
28 in every one of the 30 window years, non-leap years included; the
skip branch for non-leap years is unreachable because the normalized
target day is never February 29. -/
theorem leap_day_substitutes_feb28_all_years {m n : Nat}
    (fetch : Date → Option (Grid m n)) (y : Nat) :
    collect_daily fetch (target_day ⟨y, 2, 29⟩)
      = climatology_period.filterMap (fun yr => fetch ⟨yr, 2, 28⟩) ∧
    (load_climatology_data fetch ⟨y, 2, 29⟩).2 = [Msg.leapDayNotice] := by
  constructor
  · have h := collect_daily_eq_filterMap fetch ⟨y, 2, 29⟩
    simpa [target_day] using h
  · simp [load_climatology_data, leap_msgs]

/-- A service whose February 29 grid differs from every other day's grid. -/
def svc_leap : RemoteService 1 1 :=
  { primary := fun d =>
      if d.day = 29 then .ok (fun _ _ => some 10) else .ok (fun _ _ => some 20)
    fallback := fun _ => .error "unused" }

/-- Counterexample to claim C9 as stated: the observed-day display for a
February 29 request shows the actual February 29 grid (value 10), while a
February 28 request shows the February 28 grid (value 20) — the two
displays differ, so requesting the leap day is not equivalent to
requesting February 28 for the observed-day display.  Only the
climatology is substituted. -/
theorem leap_day_observed_display_differs :
    (main_logic svc_leap ⟨2024, 2, 29⟩).observedGrid.map (fun g => g 0 0)
        = some (some 10) ∧
    (main_logic svc_leap ⟨2024, 2, 28⟩).observedGrid.map (fun g => g 0 0)
        = some (some 20) := by
  constructor <;> rfl

/-- Claim C9 (amended): requesting February 29 yields the same climatology
result as requesting February 28 of that year and emits the user-visible
leap-day policy notice; the observed-day display, however, uses the actual
February 29 data. -/
theorem leap_day_climatology_matches_feb28 {m n : Nat}
    (fetch : Date → Option (Grid m n)) (y : Nat) :
    (load_climatology_data fetch ⟨y, 2, 29⟩).1
        = (load_climatology_data fetch ⟨y, 2, 28⟩).1 ∧
    Msg.leapDayNotice ∈ (load_climatology_data fetch ⟨y, 2, 29⟩).2 := by
  have ht : target_day ⟨y, 2, 29⟩ = target_day ⟨y, 2, 28⟩ := by
    simp [target_day]
  constructor
  · simp only [load_climatology_data, ht]
  · simp [load_climatology_data, leap_msgs]

/-- A fetcher where 1991 contributes an all-NaN grid and 1992 contributes
the value 5; every other year is absent. -/
def fetch_nan_year : Date → Option (Grid 1 1) := fun d =>
  if d.year = 1991 then some (fun _ _ => none)
  else if d.year = 1992 then some (fun _ _ => some 5)
  else none

/-- Counterexample to claim C7 as stated: 1991 contributes a grid whose
cell is NaN, yet the climatology mean at that cell is 5 (the average of
the sole non-NaN contribution), not NaN — `mean(dim="time")` skips NaN
per cell by default (`skipna=True`) instead of propagating it. -/
theorem nan_cell_not_propagated :
    (load_climatology_data fetch_nan_year ⟨2023, 7, 15⟩).1.map
        (fun g => g 0 0) = some (some 5) := by
  have hcol : collect_daily fetch_nan_year (target_day ⟨2023, 7, 15⟩)
      = [fun _ _ => none, fun _ _ => some 5] := rfl
  simp [load_climatology_data, hcol, concat_mean, meanVals]

/-- Claim C7 (amended): in the climatology reduction a per-cell NaN in a
contributing year is skipped for that cell (xarray's default
`skipna=True` mean): a cell of the result is NaN exactly when every
contributing grid is NaN there, and otherwise equals the mean of the
non-NaN contributions; the contributing year is indeed not excluded
wholesale. -/
theorem climatology_mean_skips_nan_cells {m n : Nat}
    (fetch : Date → Option (Grid m n)) (selected : Date) (g : Grid m n)
    (i : Fin m) (j : Fin n)
    (h : (load_climatology_data fetch selected).1 = some g) :
    (g i j = none ↔
      ∀ gr ∈ collect_daily fetch (target_day selected), gr i j = none) ∧
    ∀ q : ℚ, g i j = some q →
      q = ((collect_daily fetch (target_day selected)).filterMap
              (fun gr => gr i j)).sum /
          ((collect_daily fetch (target_day selected)).filterMap
              (fun gr => gr i j)).length := by
  have hg : g = concat_mean (collect_daily fetch (target_day selected)) := by
    simp only [load_climatology_data] at h
    by_cases he : (collect_daily fetch (target_day selected)).isEmpty
    · simp [he] at h
    · simp only [he, Bool.false_eq_true, if_false, Option.some.injEq] at h
      exact h.symm
  have hfm : ((collect_daily fetch (target_day selected)).map
      (fun gr => gr i j)).filterMap id
      = (collect_daily fetch (target_day selected)).filterMap
          (fun gr => gr i j) := by
    rw [List.filterMap_map]
    rfl
  have hcell : g i j
      = meanVals ((collect_daily fetch (target_day selected)).map
          (fun gr => gr i j)) := by
    rw [hg]
    rfl
  rw [hcell]
  unfold meanVals
  rw [hfm]
  cases hc : (collect_daily fetch (target_day selected)).filterMap
      (fun gr => gr i j) with
  | nil =>
      refine ⟨iff_of_true rfl ?_, ?_⟩
      · exact List.filterMap_eq_nil_iff.mp hc
      · intro q hq
        cases hq
  | cons p ps =>
      refine ⟨iff_of_false (by simp) ?_, ?_⟩
      · intro hall
        have : (collect_daily fetch (target_day selected)).filterMap
            (fun gr => gr i j) = [] := List.filterMap_eq_nil_iff.mpr hall
        rw [hc] at this
        cases this
      · intro q hq
        exact (Option.some_inj.mp hq).symm

/-- The climatology grid computed from `fetch_nan_year` (one NaN
contribution, one value-5 contribution). -/
def clim_nan_grid : Grid 1 1 :=
  concat_mean [fun _ _ => none, fun _ _ => some 5]

/-- Witness for the amended C7 at a concrete fetcher and cell. -/
theorem climatology_mean_skips_nan_cells_witness :
    (load_climatology_data fetch_nan_year ⟨2023, 7, 15⟩).1
        = some clim_nan_grid ∧
    ((clim_nan_grid 0 0 = none ↔
      ∀ gr ∈ collect_daily fetch_nan_year (target_day ⟨2023, 7, 15⟩),
        gr 0 0 = none) ∧
    ∀ q : ℚ, clim_nan_grid 0 0 = some q →
      q = ((collect_daily fetch_nan_year
              (target_day ⟨2023, 7, 15⟩)).filterMap (fun gr => gr 0 0)).sum /
          ((collect_daily fetch_nan_year
              (target_day ⟨2023, 7, 15⟩)).filterMap
                (fun gr => gr 0 0)).length) :=
  ⟨rfl, climatology_mean_skips_nan_cells fetch_nan_year ⟨2023, 7, 15⟩
    clim_nan_grid 0 0 rfl⟩

/-- Claim C5: for every input date the aggregator iterates over exactly
the years 1991 through 2020 inclusive, invokes the fetcher at the same
(month, day) — the normalized target day's — in each year, and collects
precisely the grids of the years that return one, skipping absent years;
the whole operation is total, so an absent year never fails it. -/
theorem aggregator_window_iteration {m n : Nat}
    (fetch : Date → Option (Grid m n)) (selected : Date) :
    (∀ y, y ∈ climatology_period ↔ 1991 ≤ y ∧ y ≤ 2020) ∧
    collect_daily fetch (target_day selected)
      = climatology_period.filterMap
          (fun y => fetch ⟨y, (target_day selected).month,
                             (target_day selected).day⟩) ∧
    (load_climatology_data fetch selected).1
      = (if collect_daily fetch (target_day selected) = [] then none
         else some (concat_mean (collect_daily fetch (target_day selected)))) := by
  refine ⟨?_, ?_, ?_⟩
  · intro y
    rw [climatology_period, List.mem_range']
    constructor
    · rintro ⟨i, hi, rfl⟩
      omega
    · intro hy
      exact ⟨y - 1991, by omega, by omega⟩
  · exact collect_daily_eq_filterMap fetch selected
  · simp only [load_climatology_data]
    rcases hcol : collect_daily fetch (target_day selected) with _ | ⟨g, l⟩
    · simp
    · simp

/-- Claim C1: when every year of the 1991-2020 window yields a valid grid
with no missing values, the aggregator returns the grid whose value at
each cell is the arithmetic mean of the 30 per-year values at that cell. -/
theorem climatology_mean_of_valid_years {m n : Nat}
    (fetch : Date → Option (Grid m n)) (selected : Date)
    (v : Nat → Fin m → Fin n → ℚ)
    (h : ∀ y ∈ climatology_period,
      fetch { target_day selected with year := y }
        = some (fun i j => some (v y i j))) :
    (load_climatology_data fetch selected).1
      = some (fun i j =>
          some ((climatology_period.map (fun y => v y i j)).sum / 30)) := by
  have hl : collect_daily fetch (target_day selected)
      = climatology_period.map (fun y => fun i j => some (v y i j)) := by
    rw [collect_daily_eq_filterMap]
    exact filterMap_eq_map_of_all_some climatology_period _ _ h
  have hne : ¬ (collect_daily fetch (target_day selected)).isEmpty = true := by
    rw [hl]
    simp [climatology_period]
  simp only [load_climatology_data, hne, Bool.false_eq_true, if_false,
    Option.some.injEq, if_neg hne]
  funext i j
  have hmap : (collect_daily fetch (target_day selected)).map
      (fun gr => gr i j)
      = climatology_period.map (fun y => some (v y i j)) := by
    rw [hl, List.map_map]
    rfl
  have hfm : (climatology_period.map (fun y => some (v y i j))).filterMap id
      = climatology_period.map (fun y => v y i j) := by
    rw [List.filterMap_map]
    exact congrFun (List.filterMap_eq_map (fun y => v y i j)) climatology_period
  show meanVals ((collect_daily fetch (target_day selected)).map
      (fun gr => gr i j)) = _
  rw [hmap]
  unfold meanVals
  rw [hfm]
  rcases hc : climatology_period.map (fun y => v y i j) with _ | ⟨p, ps⟩
  · exfalso
    have := congrArg List.length hc
    simp [climatology_period] at this
  · have hlen : (p :: ps).length = 30 := by
      have := congrArg List.length hc
      simpa [climatology_period] using this.symm
    show some ((p :: ps).sum / ((p :: ps).length : ℚ))
      = some ((p :: ps).sum / 30)
    rw [hlen]
    norm_num

/-- A fetcher returning the constant grid 7 for every date. -/
def fetch_const7 : Date → Option (Grid 1 1) := fun _ => some (fun _ _ => some 7)

/-- Witness for C1 at a concrete fetcher where all 30 years yield the
constant grid 7: the climatology is the constant grid 7. -/
theorem climatology_mean_of_valid_years_witness :
    (∀ y ∈ climatology_period,
      fetch_const7 { target_day ⟨2023, 7, 15⟩ with year := y }
        = some (fun _ _ => some 7)) ∧
    (load_climatology_data fetch_const7 ⟨2023, 7, 15⟩).1
      = some (fun _ _ =>
          some ((climatology_period.map (fun _ => (7 : ℚ))).sum / 30)) :=
  ⟨by decide, climatology_mean_of_valid_years fetch_const7 ⟨2023, 7, 15⟩
    (fun _ _ _ => 7) (by decide)⟩

/-- Claim C4: when the Fetcher returns absence for every one of the 30
climatology years while the observed day itself was fetched, the
aggregator returns absence (`None`), the anomaly is skipped with the
tab-2 warning in its place, and the observed-day tab still renders the
observed grid; the embedded pipeline is total, so no fault is raised. -/
theorem climatology_all_absent_renders_warning {m n : Nat}
    (svc : RemoteService m n) (selected : Date) (g : Grid m n)
    (hmn : 0 < m * n)
    (hobs : (load_and_slice_data svc selected).1 = some g)
    (habs : ∀ y ∈ climatology_period,
      (load_and_slice_data svc { target_day selected with year := y }).1
        = none) :
    (load_climatology_data (fun d => (load_and_slice_data svc d).1)
        selected).1 = none ∧
    (main_logic svc selected).observedGrid = some g ∧
    (main_logic svc selected).anomalyGrid = none ∧
    (main_logic svc selected).anomalyWarning = true ∧
    (main_logic svc selected).stopped = false := by
  have hcol : collect_daily (fun d => (load_and_slice_data svc d).1)
      (target_day selected) = [] := by
    rw [collect_daily_eq_filterMap]
    exact List.filterMap_eq_nil_iff.mpr habs
  have hclim : (load_climatology_data
      (fun d => (load_and_slice_data svc d).1) selected).1 = none := by
    simp [load_climatology_data, hcol]
  refine ⟨hclim, ?_⟩
  simp [main_logic, hobs, hclim, hmn]

/-- A service with observed data only in 2023; every climatology-window
year errors out. -/
def svc_only2023 : RemoteService 1 1 :=
  { primary := fun d =>
      if d.year = 2023 then .ok (fun _ _ => some 25) else .error "down"
    fallback := fun _ => .error "down" }

/-- Witness for C4 at a concrete service and date. -/
theorem climatology_all_absent_renders_warning_witness :
    (0 < 1 * 1 ∧
      (load_and_slice_data svc_only2023 ⟨2023, 7, 15⟩).1
        = some (fun _ _ => some 25) ∧
      ∀ y ∈ climatology_period,
        (load_and_slice_data svc_only2023
          { target_day ⟨2023, 7, 15⟩ with year := y }).1 = none) ∧
    ((load_climatology_data
        (fun d => (load_and_slice_data svc_only2023 d).1) ⟨2023, 7, 15⟩).1
          = none ∧
      (main_logic svc_only2023 ⟨2023, 7, 15⟩).observedGrid
          = some (fun _ _ => some 25) ∧
      (main_logic svc_only2023 ⟨2023, 7, 15⟩).anomalyGrid = none ∧
      (main_logic svc_only2023 ⟨2023, 7, 15⟩).anomalyWarning = true ∧
      (main_logic svc_only2023 ⟨2023, 7, 15⟩).stopped = false) :=
  ⟨⟨by decide, by decide, by decide⟩,
    climatology_all_absent_renders_warning svc_only2023 ⟨2023, 7, 15⟩
      (fun _ _ => some 25) (by decide) (by decide) (by decide)⟩

/-- Claim C10: when exactly one window year yields a grid `G` and the
other 29 return absence, the aggregator returns `G` itself — the time
mean over a single contribution is the identity, including at NaN cells. -/
theorem single_year_mean_identity {m n : Nat}
    (fetch : Date → Option (Grid m n)) (selected : Date) (y0 : Nat)
    (G : Grid m n)
    (hy : y0 ∈ climatology_period)
    (hG : fetch { target_day selected with year := y0 } = some G)
    (habs : ∀ y ∈ climatology_period, y ≠ y0 →
      fetch { target_day selected with year := y } = none) :
    (load_climatology_data fetch selected).1 = some G := by
  have hcol : collect_daily fetch (target_day selected) = [G] := by
    rw [collect_daily_eq_filterMap]
    exact filterMap_eq_singleton_of_unique climatology_period _ y0 G
      (List.nodup_range' 1991 30) hy hG habs
  simp [load_climatology_data, hcol, concat_mean_single]

/-- A fetcher with data only in the year 2000 of the window. -/
def fetch_only2000 : Date → Option (Grid 1 1) := fun d =>
  if d.year = 2000 then some (fun _ _ => some 9) else none

/-- Witness for C10 at a concrete single-contributor fetcher. -/
theorem single_year_mean_identity_witness :
    (2000 ∈ climatology_period ∧
      fetch_only2000 { target_day ⟨2023, 7, 15⟩ with year := 2000 }
        = some (fun _ _ => some 9) ∧
      ∀ y ∈ climatology_period, y ≠ 2000 →
        fetch_only2000 { target_day ⟨2023, 7, 15⟩ with year := y } = none) ∧
    (load_climatology_data fetch_only2000 ⟨2023, 7, 15⟩).1
      = some (fun _ _ => some 9) :=
  ⟨⟨by decide, by decide, by decide⟩,
    single_year_mean_identity fetch_only2000 ⟨2023, 7, 15⟩ 2000
      (fun _ _ => some 9) (by decide) (by decide) (by decide)⟩
